import Mathlib

/-!
Shallow embedding of the Windows console terminal backend
(src/src/terminal/windows.rs) and proofs about its mode management,
buffered writer and screen-geometry operations.

Machine integers are modelled as `Nat` (the `u32` console mode bitmask)
or `Int` (the `i16` coordinate fields of `SMALL_RECT`/`COORD`); OS
syscalls that can fail are threaded through explicit success flags or
`Except`-valued results, and the device-visible effects of the output
handle are recorded as an ordered event list.
-/

namespace WeztermWin

/-! ## Windows console mode bit constants (winapi wincon.h) -/

def ENABLE_PROCESSED_INPUT : Nat := 0x0001

def ENABLE_LINE_INPUT : Nat := 0x0002

def ENABLE_ECHO_INPUT : Nat := 0x0004

def ENABLE_VIRTUAL_TERMINAL_INPUT : Nat := 0x0200

def ENABLE_VIRTUAL_TERMINAL_PROCESSING : Nat := 0x0004

def DISABLE_NEWLINE_AUTO_RETURN : Nat := 0x0008

/-- Bitwise complement inside a 32-bit word: the Rust `!mask` on a `u32`. -/
def not32 (x : Nat) : Nat := x ^^^ (2 ^ 32 - 1)

/-! ## Console mode state

The live OS console state seen through the duplicated handles: the input
mode bitmask of the CONIN handle and the output mode bitmask of the
CONOUT handle. `GetConsoleMode` reads a field, `SetConsoleMode` replaces
it (when the syscall succeeds). -/

structure ConsoleState where
  inputMode : Nat
  outputMode : Nat
deriving DecidableEq, Repr

/-- The pure bit transform applied by `set_raw_mode`
(src/src/terminal/windows.rs lines 354-360):
`mode & !(ENABLE_ECHO_INPUT | ENABLE_LINE_INPUT | ENABLE_PROCESSED_INPUT)`. -/
def rawModeTransform (mode : Nat) : Nat :=
  mode &&& not32 (ENABLE_ECHO_INPUT ||| ENABLE_LINE_INPUT ||| ENABLE_PROCESSED_INPUT)

/-- Embedding of `<WindowsTerminal as Terminal>::set_raw_mode`
(lines 354-360).  `getOk`/`setOk` tell whether the `GetConsoleMode` and
`SetConsoleMode` syscalls succeed; a failing syscall leaves the console
state unchanged and the function returns an error (`false`). -/
def set_raw_mode (st : ConsoleState) (getOk setOk : Bool) : ConsoleState × Bool :=
  if getOk then
    if setOk then ({ st with inputMode := rawModeTransform st.inputMode }, true)
    else (st, false)
  else (st, false)

/-- Embedding of `WindowsTerminal::enable_virtual_terminal_processing`
(lines 313-324).  The four flags give the outcomes of the four syscalls in
program order: get output mode, set output mode, get input mode, set input
mode.  Each `?` early-returns on failure, leaving later state untouched. -/
def enable_virtual_terminal_processing (st : ConsoleState)
    (getOutOk setOutOk getInOk setInOk : Bool) : ConsoleState × Bool :=
  if getOutOk then
    if setOutOk then
      let st1 : ConsoleState :=
        { st with outputMode :=
            st.outputMode ||| ENABLE_VIRTUAL_TERMINAL_PROCESSING |||
              DISABLE_NEWLINE_AUTO_RETURN }
      if getInOk then
        if setInOk then
          ({ st1 with inputMode := st1.inputMode ||| ENABLE_VIRTUAL_TERMINAL_INPUT },
            true)
        else (st1, false)
      else (st1, false)
    else (st, false)
  else (st, false)

/-! ## Terminal lifecycle -/

/-- The fields of `WindowsTerminal` (lines 243-250) relevant to mode
handling and output buffering: the resident write buffer and the two mode
values saved at construction.  The handles themselves are represented by
the separate `ConsoleState`. -/
structure WindowsTerminal where
  write_buffer : List Nat
  saved_input_mode : Nat
  saved_output_mode : Nat
deriving DecidableEq, Repr

/-- Embedding of the success path of `WindowsTerminal::new_with`
(lines 276-302): after the tty checks and handle duplication, the current
input and output modes are read (reads do not mutate the console) and
stored as the saved modes; the write buffer starts empty. -/
def new_with (st : ConsoleState) : WindowsTerminal × ConsoleState :=
  ({ write_buffer := [], saved_input_mode := st.inputMode,
     saved_output_mode := st.outputMode }, st)

/-- Embedding of `impl Drop for WindowsTerminal` (lines 252-261), success
path of the two restoring `SetConsoleMode` calls: the saved input and
output modes are written back unconditionally. -/
def dropTerminal (t : WindowsTerminal) (st : ConsoleState) : ConsoleState :=
  { st with inputMode := t.saved_input_mode, outputMode := t.saved_output_mode }

/-- A mode-mutating call on a live terminal, together with the outcomes of
its underlying syscalls. -/
inductive ModeOp where
  | setRawMode (getOk setOk : Bool)
  | enableVtp (getOutOk setOutOk getInOk setInOk : Bool)
deriving DecidableEq, Repr

/-- Effect of one `ModeOp` on the console state.  Neither operation
touches the terminal's saved-mode fields. -/
def applyModeOp (st : ConsoleState) : ModeOp → ConsoleState
  | .setRawMode g s => (set_raw_mode st g s).1
  | .enableVtp go so gi si => (enable_virtual_terminal_processing st go so gi si).1

/-- Effect of a sequence of mode-mutating calls, in order. -/
def runModeOps (st : ConsoleState) (ops : List ModeOp) : ConsoleState :=
  ops.foldl applyModeOp st

/-! ## Buffered writer

`<WindowsTerminal as Write>` (lines 332-351).  The device-visible effects
issued to the output handle are recorded as an ordered event list: a
`write` event for each `WriteFile` on the handle and a `flushDev` event
for each `FlushFileBuffers`. -/

/-- One device-visible action on the output handle. -/
inductive DevEvent where
  | write (data : List Nat)
  | flushDev
deriving DecidableEq, Repr

/-- The writer-relevant state: the resident `write_buffer` of the
`WindowsTerminal` plus the trace of events issued to the output handle. -/
structure WriterState where
  buffer : List Nat
  events : List DevEvent
deriving DecidableEq, Repr

/-- Embedding of `<WindowsTerminal as Write>::flush` (lines 344-350) with
explicit syscall outcomes.  `wres` is the result of the
`OutputHandle::write` (`WriteFile`) call on the whole buffer — `Ok n`
carries the byte count the OS reports written; the code discards `n`,
clears the buffer, and proceeds.  `fok` tells whether the final
`FlushFileBuffers` succeeds.  When the buffer is empty no `WriteFile` is
issued and `wres` is unused. -/
def flushWith (st : WriterState) (wres : Except Unit Nat) (fok : Bool) :
    Except Unit WriterState :=
  if st.buffer.length > 0 then
    match wres with
    | .error e => .error e
    | .ok _ =>
      let st1 : WriterState :=
        { buffer := [], events := st.events ++ [DevEvent.write st.buffer] }
      if fok then .ok { st1 with events := st1.events ++ [DevEvent.flushDev] }
      else .error ()
  else
    if fok then .ok { st with events := st.events ++ [DevEvent.flushDev] }
    else .error ()

/-- The success path of `flush`: `WriteFile` reports the full buffer
written and `FlushFileBuffers` succeeds. -/
def term_flush (st : WriterState) : WriterState :=
  let st1 : WriterState :=
    if st.buffer.length > 0 then
      { buffer := [], events := st.events ++ [DevEvent.write st.buffer] }
    else st
  { st1 with events := st1.events ++ [DevEvent.flushDev] }

/-- Embedding of `<WindowsTerminal as Write>::write` (lines 333-342),
success path.  `cap` is `write_buffer.capacity()`, i.e. `BUF_SIZE`: the
flush-first branch guarantees every append keeps
`buffer.length + data.length ≤ cap`, so the `Vec` never reallocates and
its capacity stays at the initial `BUF_SIZE`.  Returns the new state and
the byte count the call reports. -/
def term_write (cap : Nat) (st : WriterState) (data : List Nat) :
    WriterState × Nat :=
  let st1 := if st.buffer.length + data.length > cap then term_flush st else st
  if data.length ≥ cap then
    ({ st1 with events := st1.events ++ [DevEvent.write data] }, data.length)
  else
    ({ st1 with buffer := st1.buffer ++ data }, data.length)

/-! ## Screen geometry -/

/-- The visible-window rectangle of `CONSOLE_SCREEN_BUFFER_INFO.srWindow`;
each field is an `i16` in the OS struct, modelled as `Int`. -/
structure SMALL_RECT where
  Left : Int
  Top : Int
  Right : Int
  Bottom : Int
deriving DecidableEq, Repr

/-- The `ScreenSize` result type (terminal crate): `rows`/`cols` are
`usize` in the source, modelled as `Nat`. -/
structure ScreenSize where
  rows : Nat
  cols : Nat
  xpixel : Nat
  ypixel : Nat
deriving DecidableEq, Repr

def I16_MAX : Int := 32767

/-- Modelled from the spec: the helper `cast` lives in `terminal/mod.rs`,
which is not under `src/`; the spec describes it as an explicit
range-checked numeric cast that fails exactly when the value does not fit
the target type.  This instance casts an `i16` value to `usize`: it fails
exactly on negative values. -/
def castI16ToUsize (v : Int) : Except Unit Nat :=
  if 0 ≤ v then .ok v.toNat else .error ()

/-- Modelled from the spec: the same range-checked `cast`, here from a
`usize` to an `i16` `COORD` field: it fails exactly when the value
exceeds `i16::MAX`. -/
def castUsizeToI16 (v : Nat) : Except Unit Int :=
  if (v : Int) ≤ I16_MAX then .ok (v : Int) else .error ()

/-- Embedding of `<WindowsTerminal as Terminal>::get_screen_size`
(lines 362-379), given a successful `GetConsoleScreenBufferInfo` query
reporting visible window `window`.  The width is deliberately
under-reported by one: `visible_width = 0 + (Right - Left)` while
`visible_height = 1 + (Bottom - Top)`; pixel sizes are reported as 0. -/
def get_screen_size (window : SMALL_RECT) : Except Unit ScreenSize :=
  let visible_width := 0 + (window.Right - window.Left)
  let visible_height := 1 + (window.Bottom - window.Top)
  match castI16ToUsize visible_height with
  | .error e => .error e
  | .ok rows =>
    match castI16ToUsize visible_width with
    | .error e => .error e
    | .ok cols => .ok { rows := rows, cols := cols, xpixel := 0, ypixel := 0 }

/-- The OS console geometry state: the visible-window rectangle and the
backing screen-buffer dimensions. -/
structure ConsoleOsGeometry where
  window : SMALL_RECT
  bufX : Int
  bufY : Int
deriving DecidableEq, Repr

/-- Modelled from the spec: `SetConsoleScreenBufferSize` is an OS
primitive outside this repository.  Property P5 presumes the visible
window tracks a buffer resize when the window is at least as large as the
requested buffer; this is modelled as the window span being clamped to
the new buffer extent, anchored at its Left/Top corner. -/
def setConsoleScreenBufferSize (os : ConsoleOsGeometry) (X Y : Int) :
    ConsoleOsGeometry :=
  { window :=
      { os.window with
        Right := min os.window.Right (os.window.Left + X - 1),
        Bottom := min os.window.Bottom (os.window.Top + Y - 1) },
    bufX := X, bufY := Y }

/-- Embedding of `<WindowsTerminal as Terminal>::set_screen_size`
(lines 381-397), success path of the OS call: the requested `COORD` is
`X = cast(size.cols + 1)`, `Y = cast(size.rows)`. -/
def set_screen_size (size : ScreenSize) (os : ConsoleOsGeometry) :
    Except Unit ConsoleOsGeometry :=
  (castUsizeToI16 (size.cols + 1)).bind fun X =>
    (castUsizeToI16 size.rows).bind fun Y =>
      .ok (setConsoleScreenBufferSize os X Y)

/-! ## Helper lemmas -/

/-- Equality of fallible results is decidable, so claims can be checked
on concrete inputs. -/
instance {ε α : Type} [DecidableEq ε] [DecidableEq α] :
    DecidableEq (Except ε α) := fun x y =>
  match x, y with
  | .error a, .error b =>
    if h : a = b then .isTrue (by rw [h])
    else .isFalse (fun hc => by cases hc; exact h rfl)
  | .error _, .ok _ => .isFalse (fun hc => by cases hc)
  | .ok _, .error _ => .isFalse (fun hc => by cases hc)
  | .ok a, .ok b =>
    if h : a = b then .isTrue (by rw [h])
    else .isFalse (fun hc => by cases hc; exact h rfl)

/-- Bit-level description of the raw-mode transform: bits 0-2 (processed,
line, echo) are cleared, every other bit below 32 is preserved. -/
theorem rawModeTransform_testBit (m i : Nat) :
    (rawModeTransform m).testBit i =
      (m.testBit i && (decide (i < 3)).not.and (decide (i < 32))) := by
  have hmask : rawModeTransform m = m &&& ((2 ^ 3 - 1) ^^^ (2 ^ 32 - 1)) := rfl
  rw [hmask, Nat.testBit_land, Nat.testBit_xor, Nat.testBit_two_pow_sub_one,
    Nat.testBit_two_pow_sub_one]
  by_cases h3 : i < 3
  · have h32 : i < 32 := by omega
    simp [h3, h32]
  · by_cases h32 : i < 32
    · simp [h3, h32]
    · simp [h3, h32]

/-- The raw-mode transform is a projection: applying it twice equals
applying it once. -/
theorem rawModeTransform_proj (m : Nat) :
    rawModeTransform (rawModeTransform m) = rawModeTransform m := by
  unfold rawModeTransform
  rw [Nat.land_assoc]
  congr 1

/-- Binding a successful result applies the continuation directly. -/
theorem exceptOkBind {ε α β : Type} (a : α) (f : α → Except ε β) :
    (Except.ok (ε := ε) a).bind f = f a := rfl

/-- Success form of the geometry query: when the window spans are
representable, the reported size is (Bottom − Top + 1) rows and
(Right − Left) columns with zero pixel sizes. -/
theorem get_screen_size_ok (w : SMALL_RECT)
    (hw : w.Left ≤ w.Right) (hh : w.Top ≤ w.Bottom + 1) :
    get_screen_size w =
      Except.ok
        { rows := (w.Bottom - w.Top + 1).toNat,
          cols := (w.Right - w.Left).toNat,
          xpixel := 0, ypixel := 0 } := by
  obtain ⟨l, t, r, b⟩ := w
  simp only at hw hh
  have h1 : (0 : Int) ≤ 1 + (b - t) := by omega
  have h2 : (0 : Int) ≤ 0 + (r - l) := by omega
  simp only [get_screen_size, castI16ToUsize, h1, h2, if_pos]
  have e1 : (1 + (b - t)).toNat = (b - t + 1).toNat := by omega
  have e2 : ((0 : Int) + (r - l)).toNat = (r - l).toNat := by omega
  simp [e1, e2]

/-- Closed form of the success path of `flush`: the whole buffer (when
non-empty) is written as one event, the buffer is cleared, and a
device-level flush is always issued last. -/
theorem term_flush_eq (st : WriterState) :
    term_flush st =
      { buffer := [],
        events := st.events ++
          (if st.buffer = [] then [] else [DevEvent.write st.buffer]) ++
          [DevEvent.flushDev] } := by
  obtain ⟨buf, evs⟩ := st
  by_cases h : buf = []
  · subst h
    simp [term_flush]
  · have hl : 0 < buf.length := List.length_pos.mpr h
    simp [term_flush, hl, h]

/-! ## Claim theorems -/

/-- C5: for every current input mode bitmask, `set_raw_mode` succeeds and
writes back exactly the current mode with the `ENABLE_ECHO_INPUT`,
`ENABLE_LINE_INPUT` and `ENABLE_PROCESSED_INPUT` bits (bits 2, 1, 0)
cleared and every other bit unchanged — a read-modify-write, not an
absolute set. -/
theorem set_raw_mode_clears_bits (st : ConsoleState) (h : st.inputMode < 2 ^ 32) :
    (set_raw_mode st true true).2 = true ∧
    ∀ i : Nat,
      (set_raw_mode st true true).1.inputMode.testBit i =
        if i < 3 then false else st.inputMode.testBit i := by
  refine ⟨rfl, fun i => ?_⟩
  have hstep : (set_raw_mode st true true).1.inputMode =
      rawModeTransform st.inputMode := rfl
  rw [hstep, rawModeTransform_testBit]
  by_cases h3 : i < 3
  · simp [h3]
  · by_cases h32 : i < 32
    · simp [h3, h32]
    · have hbit : st.inputMode.testBit i = false :=
        Nat.testBit_lt_two_pow
          (lt_of_lt_of_le h (Nat.pow_le_pow_right (by omega) (by omega)))
      simp [h3, h32, hbit]

/-- C5 witness: starting from input mode `0xF` (echo, line, processed and
one unrelated bit set), `set_raw_mode` succeeds and the resulting mode is
`0x8` — only the unrelated bit remains. -/
theorem set_raw_mode_clears_bits_wit :
    (15 : Nat) < 2 ^ 32 ∧
    (set_raw_mode ⟨15, 0⟩ true true).2 = true ∧
    (set_raw_mode ⟨15, 0⟩ true true).1.inputMode = 8 := by
  have h := set_raw_mode_clears_bits ⟨15, 0⟩ (by decide)
  exact ⟨by decide, h.1, by decide⟩

/-- C9: calling `set_raw_mode` twice in succession leaves the console
state (in particular the input mode bitmask) identical to calling it
once: the bit-clearing transform is idempotent. -/
theorem set_raw_mode_idempotent (st : ConsoleState) :
    (set_raw_mode (set_raw_mode st true true).1 true true).1 =
      (set_raw_mode st true true).1 := by
  show ({ st with inputMode := rawModeTransform (rawModeTransform st.inputMode) }
      : ConsoleState) = { st with inputMode := rawModeTransform st.inputMode }
  rw [rawModeTransform_proj]

/-- C6: `flush` writes the buffer's entire contents to the output handle
as one write and clears the buffer whenever it is non-empty, and in every
case — including an empty buffer — finishes by issuing the handle-level
flush to the OS; this closed form is exactly what the syscall-level
embedding produces on the success path. -/
theorem flush_spec (st : WriterState) :
    term_flush st =
      { buffer := [],
        events := st.events ++
          (if st.buffer = [] then [] else [DevEvent.write st.buffer]) ++
          [DevEvent.flushDev] } ∧
    flushWith st (Except.ok st.buffer.length) true = Except.ok (term_flush st) := by
  refine ⟨term_flush_eq st, ?_⟩
  obtain ⟨buf, evs⟩ := st
  by_cases h : buf = []
  · subst h
    simp [flushWith, term_flush]
  · have hl : 0 < buf.length := List.length_pos.mpr h
    simp [flushWith, term_flush, hl]

/-- C10: when `flush` runs with a non-empty buffer, it issues exactly one
underlying write of the whole buffer, and whatever byte count `Ok n` that
write reports — including `n` smaller than the buffer length — the buffer
is cleared in full, the unwritten tail is discarded rather than retried,
and `flush` reports success; the outcome is independent of `n`. -/
theorem flush_discards_partial_write (st : WriterState) (n : Nat)
    (h : st.buffer ≠ []) :
    flushWith st (Except.ok n) true =
      Except.ok
        { buffer := [],
          events := st.events ++ [DevEvent.write st.buffer, DevEvent.flushDev] } ∧
    ∀ m : Nat, flushWith st (Except.ok m) true = flushWith st (Except.ok n) true := by
  obtain ⟨buf, evs⟩ := st
  have hl : 0 < buf.length := List.length_pos.mpr h
  constructor
  · simp [flushWith, hl]
  · intro m
    simp [flushWith, hl]

/-- C10 witness: a three-byte buffer whose `WriteFile` reports only one
byte written is still cleared in full and the flush reports success. -/
theorem flush_discards_partial_write_wit :
    (([1, 2, 3] : List Nat) ≠ []) ∧ (1 : Nat) < ([1, 2, 3] : List Nat).length ∧
    flushWith ⟨[1, 2, 3], []⟩ (Except.ok 1) true =
      Except.ok
        { buffer := [],
          events := [DevEvent.write [1, 2, 3], DevEvent.flushDev] } := by
  have h := flush_discards_partial_write ⟨[1, 2, 3], []⟩ 1 (by decide)
  exact ⟨by decide, by decide, h.1⟩

/-- C1: for every starting console state and every sequence of
`set_raw_mode` / `enable_virtual_terminal_processing` calls (with any
syscall outcomes), the input and output modes observed after the terminal
is dropped equal the modes read at construction, and the saved-mode
fields captured at construction are exactly those construction-time
values — the restoration target no matter how the modes were changed. -/
theorem mode_restoration_after_drop (st : ConsoleState) (ops : List ModeOp) :
    (dropTerminal (new_with st).1 (runModeOps (new_with st).2 ops)).inputMode =
        st.inputMode ∧
    (dropTerminal (new_with st).1 (runModeOps (new_with st).2 ops)).outputMode =
        st.outputMode ∧
    (new_with st).1.saved_input_mode = st.inputMode ∧
    (new_with st).1.saved_output_mode = st.outputMode :=
  ⟨rfl, rfl, rfl, rfl⟩

/-- C7: `enable_virtual_terminal_processing` first ORs
`ENABLE_VIRTUAL_TERMINAL_PROCESSING | DISABLE_NEWLINE_AUTO_RETURN` into
the output mode, then ORs `ENABLE_VIRTUAL_TERMINAL_INPUT` into the input
mode, both read-modify-write; when the output-side update has succeeded
and the input side fails (either its get or its set), the function
returns an error while the output-side change remains in effect and the
input mode is untouched. -/
theorem enable_vtp_order_partial_failure (st : ConsoleState) (gi si : Bool) :
    (enable_virtual_terminal_processing st true true gi si).1.outputMode =
      st.outputMode ||| ENABLE_VIRTUAL_TERMINAL_PROCESSING |||
        DISABLE_NEWLINE_AUTO_RETURN ∧
    (gi = true → si = true →
      enable_virtual_terminal_processing st true true gi si =
        ({ inputMode := st.inputMode ||| ENABLE_VIRTUAL_TERMINAL_INPUT,
           outputMode := st.outputMode ||| ENABLE_VIRTUAL_TERMINAL_PROCESSING |||
             DISABLE_NEWLINE_AUTO_RETURN }, true)) ∧
    (gi = false ∨ si = false →
      (enable_virtual_terminal_processing st true true gi si).2 = false ∧
      (enable_virtual_terminal_processing st true true gi si).1.inputMode =
        st.inputMode) := by
  cases gi <;> cases si <;>
    simp [enable_virtual_terminal_processing]

/-- C7 witness: from modes `(0, 0)`, output get/set succeed and the input
set fails: the call reports failure, the output mode keeps the two new
bits (`0xC`), and the input mode is unchanged. -/
theorem enable_vtp_order_partial_failure_wit :
    (enable_virtual_terminal_processing ⟨0, 0⟩ true true true false).2 = false ∧
    (enable_virtual_terminal_processing ⟨0, 0⟩ true true true false).1.outputMode = 12 ∧
    (enable_virtual_terminal_processing ⟨0, 0⟩ true true true false).1.inputMode = 0 := by
  have h := enable_vtp_order_partial_failure ⟨0, 0⟩ true false
  exact ⟨(h.2.2 (Or.inr rfl)).1, by decide, (h.2.2 (Or.inr rfl)).2⟩

/-- C2: case analysis of `write`.  When the buffered length plus the
input length exceeds the capacity, the buffer is flushed first (its whole
contents written as one event followed by the device-level flush); then
an input at least as large as the capacity is written directly to the
output handle without being buffered, while a smaller input is appended
to the buffer; in every case the call reports the input's full length,
and an input of size at least the capacity always leaves a device-visible
write of exactly that input as the last event issued. -/
theorem write_flush_first_and_bypass (cap : Nat) (st : WriterState)
    (data : List Nat) :
    (term_write cap st data).2 = data.length ∧
    (cap < st.buffer.length + data.length → cap ≤ data.length →
      term_write cap st data =
        ({ buffer := [],
           events := st.events ++
             (if st.buffer = [] then [] else [DevEvent.write st.buffer]) ++
             [DevEvent.flushDev] ++ [DevEvent.write data] }, data.length)) ∧
    (cap < st.buffer.length + data.length → data.length < cap →
      term_write cap st data =
        ({ buffer := data,
           events := st.events ++
             (if st.buffer = [] then [] else [DevEvent.write st.buffer]) ++
             [DevEvent.flushDev] }, data.length)) ∧
    (st.buffer.length + data.length ≤ cap → data.length < cap →
      term_write cap st data =
        ({ buffer := st.buffer ++ data, events := st.events }, data.length)) ∧
    (st.buffer.length + data.length ≤ cap → cap ≤ data.length →
      term_write cap st data =
        ({ buffer := st.buffer,
           events := st.events ++ [DevEvent.write data] }, data.length)) ∧
    (cap ≤ data.length →
      (term_write cap st data).1.events.getLast? = some (DevEvent.write data)) := by
  obtain ⟨buf, evs⟩ := st
  refine ⟨?_, ?_, ?_, ?_, ?_, ?_⟩
  · unfold term_write
    dsimp only
    split <;> split <;> rfl
  · intro hover hbig
    simp [term_write, term_flush_eq, hover, Nat.not_lt.mpr hbig]
  · intro hover hsmall
    simp [term_write, term_flush_eq, hover, hsmall, Nat.not_le.mpr hsmall]
  · intro hfit hsmall
    simp [term_write, Nat.not_lt.mpr hfit, Nat.not_le.mpr hsmall]
  · intro hfit hbig
    simp [term_write, Nat.not_lt.mpr hfit, Nat.not_lt.mpr hbig, Nat.le_antisymm]
  · intro hbig
    unfold term_write
    dsimp only
    have : ¬ data.length < cap := Nat.not_lt.mpr hbig
    split <;> simp [this]

/-- C2 witness: capacity 4, two bytes resident, a four-byte input: the
resident bytes are flushed first (one write event then the device flush),
then the input is written directly, never entering the buffer. -/
theorem write_flush_first_and_bypass_wit :
    4 < ([1, 2] : List Nat).length + ([5, 6, 7, 8] : List Nat).length ∧
    4 ≤ ([5, 6, 7, 8] : List Nat).length ∧
    term_write 4 ⟨[1, 2], []⟩ [5, 6, 7, 8] =
      ({ buffer := [],
         events := [DevEvent.write [1, 2], DevEvent.flushDev,
           DevEvent.write [5, 6, 7, 8]] }, 4) := by
  have h := (write_flush_first_and_bypass 4 ⟨[1, 2], []⟩ [5, 6, 7, 8]).2.1
    (by decide) (by decide)
  exact ⟨by decide, by decide, by simpa using h⟩

/-- C3: whenever the OS buffer-info query reports a visible window
rectangle whose spans are representable (Left ≤ Right and
Top ≤ Bottom + 1), `get_screen_size` succeeds with
rows = Bottom − Top + 1 and cols = Right − Left — one less than the
inclusive window width — and zero pixel dimensions. -/
theorem get_screen_size_eq (w : SMALL_RECT)
    (hw : w.Left ≤ w.Right) (hh : w.Top ≤ w.Bottom + 1) :
    get_screen_size w =
      Except.ok
        { rows := (w.Bottom - w.Top + 1).toNat,
          cols := (w.Right - w.Left).toNat,
          xpixel := 0, ypixel := 0 } :=
  get_screen_size_ok w hw hh

/-- C3 witness: the window rectangle left=0, top=0, right=99, bottom=29
yields cols = 99 (not the inclusive width 100) and rows = 30, with zero
pixel sizes. -/
theorem get_screen_size_eq_wit :
    ((⟨0, 0, 99, 29⟩ : SMALL_RECT).Left ≤ (⟨0, 0, 99, 29⟩ : SMALL_RECT).Right) ∧
    ((⟨0, 0, 99, 29⟩ : SMALL_RECT).Top ≤ (⟨0, 0, 99, 29⟩ : SMALL_RECT).Bottom + 1) ∧
    get_screen_size ⟨0, 0, 99, 29⟩ =
      Except.ok { rows := 30, cols := 99, xpixel := 0, ypixel := 0 } := by
  have h := get_screen_size_eq ⟨0, 0, 99, 29⟩ (by decide) (by decide)
  exact ⟨by decide, by decide, by simpa using h⟩

/-- C8 counterexample: a visible window whose Right equals its Left is a
rectangle the OS query can report, and on it `get_screen_size` succeeds
with cols = 0 — columns are not a positive integer, refuting the claim
as stated. -/
theorem get_screen_size_zero_cols_cex :
    get_screen_size ⟨0, 0, 0, 29⟩ =
      Except.ok { rows := 30, cols := 0, xpixel := 0, ypixel := 0 } ∧
    ¬ 0 < ({ rows := 30, cols := 0, xpixel := 0, ypixel := 0 } : ScreenSize).cols := by
  decide

/-- C8 amended: every value returned by a successful `get_screen_size`
call has nonnegative rows and columns, with columns positive exactly when
Right exceeds Left and rows positive exactly when Top ≤ Bottom; a
rectangle with Right = Left yields cols = 0. -/
theorem get_screen_size_positivity_iff (w : SMALL_RECT) (s : ScreenSize)
    (h : get_screen_size w = Except.ok s) :
    (0 < s.cols ↔ w.Left < w.Right) ∧ (0 < s.rows ↔ w.Top ≤ w.Bottom) := by
  obtain ⟨l, t, r, b⟩ := w
  by_cases h1 : (0 : Int) ≤ 1 + (b - t)
  · by_cases h2 : (0 : Int) ≤ 0 + (r - l)
    · have hval : get_screen_size ⟨l, t, r, b⟩ =
          Except.ok
            { rows := (1 + (b - t)).toNat, cols := ((0 : Int) + (r - l)).toNat,
              xpixel := 0, ypixel := 0 } := by
        simp only [get_screen_size, castI16ToUsize]
        rw [if_pos h1, if_pos h2]
      rw [hval] at h
      obtain rfl := Except.ok.inj h
      refine ⟨?_, ?_⟩ <;> dsimp only <;> omega
    · have hval : get_screen_size ⟨l, t, r, b⟩ = Except.error () := by
        simp only [get_screen_size, castI16ToUsize]
        rw [if_pos h1, if_neg h2]
      rw [hval] at h
      exact Except.noConfusion h
  · have hval : get_screen_size ⟨l, t, r, b⟩ = Except.error () := by
      simp only [get_screen_size, castI16ToUsize]
      rw [if_neg h1]
    rw [hval] at h
    exact Except.noConfusion h

/-- C8 amended witness: on the rectangle left=0, top=0, right=0,
bottom=29 the successful result has cols not positive (Right = Left) and
rows positive (Top ≤ Bottom). -/
theorem get_screen_size_positivity_iff_wit :
    get_screen_size ⟨0, 0, 0, 29⟩ =
      Except.ok { rows := 30, cols := 0, xpixel := 0, ypixel := 0 } ∧
    ¬ 0 < ({ rows := 30, cols := 0, xpixel := 0, ypixel := 0 } : ScreenSize).cols ∧
    0 < ({ rows := 30, cols := 0, xpixel := 0, ypixel := 0 } : ScreenSize).rows := by
  have h := get_screen_size_positivity_iff ⟨0, 0, 0, 29⟩
    { rows := 30, cols := 0, xpixel := 0, ypixel := 0 } (by decide)
  refine ⟨by decide, ?_, ?_⟩
  · intro hc
    exact absurd (h.1.mp hc) (by decide)
  · exact h.2.mpr (by decide)

/-- C4: `set_screen_size(rows, cols)` requests an OS console buffer
resize to exactly `(cols + 1, rows)` — inverting the one-column
under-report of `get_screen_size` — and, given the visible window is at
least that large (so the window span tracks the new buffer extent), a
following `get_screen_size` yields exactly `(rows, cols)` again. -/
theorem set_get_screen_size_roundtrip (rows cols : Nat) (os : ConsoleOsGeometry)
    (hcols : (cols : Int) + 1 ≤ I16_MAX) (hrows : (rows : Int) ≤ I16_MAX)
    (hw : os.window.Left + (cols : Int) ≤ os.window.Right)
    (hh : os.window.Top + (rows : Int) - 1 ≤ os.window.Bottom) :
    set_screen_size ⟨rows, cols, 0, 0⟩ os =
      Except.ok (setConsoleScreenBufferSize os ((cols : Int) + 1) (rows : Int)) ∧
    (setConsoleScreenBufferSize os ((cols : Int) + 1) (rows : Int)).bufX =
      (cols : Int) + 1 ∧
    (setConsoleScreenBufferSize os ((cols : Int) + 1) (rows : Int)).bufY =
      (rows : Int) ∧
    get_screen_size
        (setConsoleScreenBufferSize os ((cols : Int) + 1) (rows : Int)).window =
      Except.ok { rows := rows, cols := cols, xpixel := 0, ypixel := 0 } := by
  obtain ⟨⟨l, t, r, b⟩, bx, bY⟩ := os
  simp only at hw hh
  have hc : ((cols + 1 : Nat) : Int) ≤ I16_MAX := by push_cast; omega
  have hcast : ((cols + 1 : Nat) : Int) = (cols : Int) + 1 := by push_cast; ring
  have hx : castUsizeToI16 (cols + 1) = Except.ok ((cols : Int) + 1) := by
    unfold castUsizeToI16
    rw [if_pos hc, hcast]
  have hy : castUsizeToI16 rows = Except.ok (rows : Int) := by
    unfold castUsizeToI16
    rw [if_pos hrows]
  have hset : set_screen_size ⟨rows, cols, 0, 0⟩ ⟨⟨l, t, r, b⟩, bx, bY⟩ =
      Except.ok (setConsoleScreenBufferSize ⟨⟨l, t, r, b⟩, bx, bY⟩
        ((cols : Int) + 1) (rows : Int)) := by
    show (castUsizeToI16 (cols + 1)).bind _ = _
    rw [hx, exceptOkBind, hy, exceptOkBind]
  refine ⟨hset, rfl, rfl, ?_⟩
  clear hset hx hy hc hcast
  have hwin : (setConsoleScreenBufferSize ⟨⟨l, t, r, b⟩, bx, bY⟩
      ((cols : Int) + 1) (rows : Int)).window =
      ⟨l, t, l + (cols : Int), t + (rows : Int) - 1⟩ := by
    simp only [setConsoleScreenBufferSize]
    congr 1 <;> omega
  rw [hwin]
  rw [get_screen_size_ok ⟨l, t, l + (cols : Int), t + (rows : Int) - 1⟩
    (by simp only; omega) (by simp only; omega)]
  have e1 : ((t + (rows : Int) - 1) - t + 1).toNat = rows := by omega
  have e2 : ((l + (cols : Int)) - l).toNat = cols := by omega
  simp only
  rw [e1, e2]

set_option maxRecDepth 4000 in
/-- C4 witness: with window `(0, 0, 150, 50)` (151 × 51, at least
101 × 40), `set_screen_size(rows=40, cols=100)` resizes the buffer to
`(101, 40)` and a following `get_screen_size` reports rows = 40 and
cols = 100. -/
theorem set_get_screen_size_roundtrip_wit :
    ((100 : Int) + 1 ≤ I16_MAX) ∧ ((40 : Int) ≤ I16_MAX) ∧
    ((0 : Int) + 100 ≤ 150) ∧ ((0 : Int) + 40 - 1 ≤ 50) ∧
    set_screen_size ⟨40, 100, 0, 0⟩ ⟨⟨0, 0, 150, 50⟩, 1, 1⟩ =
      Except.ok ⟨⟨0, 0, 100, 39⟩, 101, 40⟩ ∧
    get_screen_size ⟨0, 0, 100, 39⟩ =
      Except.ok { rows := 40, cols := 100, xpixel := 0, ypixel := 0 } := by
  have h := set_get_screen_size_roundtrip 40 100 ⟨⟨0, 0, 150, 50⟩, 1, 1⟩
    (by decide) (by decide) (by decide) (by decide)
  refine ⟨by decide, by decide, by decide, by decide, ?_, ?_⟩
  · have h1 := h.1
    rw [show setConsoleScreenBufferSize ⟨⟨0, 0, 150, 50⟩, 1, 1⟩
        (((100 : Nat) : Int) + 1) (((40 : Nat) : Int)) =
        (⟨⟨0, 0, 100, 39⟩, 101, 40⟩ : ConsoleOsGeometry) from by decide] at h1
    exact h1
  · have h4 := h.2.2.2
    rw [show (setConsoleScreenBufferSize ⟨⟨0, 0, 150, 50⟩, 1, 1⟩
        (((100 : Nat) : Int) + 1) (((40 : Nat) : Int))).window =
        (⟨0, 0, 100, 39⟩ : SMALL_RECT) from by decide] at h4
    exact h4

end WeztermWin
